import Mathlib

/-
Verification of the dependency-check download/install pipeline
(azure-pipelines task, TypeScript sources:
  src/unnamed/part_000                                     -- main task variant
  src/src/Tasks/dependency-check-data-task/dependency-check-data-task.ts
  src/src/Tasks/dependency-check-data-task/dependency-check-options.ts).

Shallow embedding: pure helpers become Lean functions; I/O steps (HTTP GET,
file writes, process execution, filesystem checks) are oracles passed in as
explicit arguments; the orchestrator functions return the list of performed
side effects together with an optional raised error.
-/

/- ## VersionResolver: isVersionFormatValid

Source (part_000 lines 126-133, data-task lines 212-219):

    const versionPattern: string = `^(\d\.\d\.\d|latest)$`;
    const versionRegex = new RegExp(versionPattern, 'gi');
    return versionRegex.test(version);

The pattern is built in a JS template literal, where the sequences \d and \.
are NOT recognized escapes and cook to the plain characters d and . - so the
string handed to RegExp is  ^(d.d.d|latest)$  with flags g,i.  The regex that
actually runs therefore matches either the literal word latest (any letter
case) or a 5-character string whose characters 0,2,4 are the letter d/D and
whose characters 1,3 are arbitrary non-line-terminator characters.  The
regex object is freshly constructed on every call, so the g flag has no
cross-call effect.  Case folding is modelled for ASCII (all inputs of
interest are ASCII). -/

/-- ASCII lower-casing of a string, as performed on the relevant inputs by
the i regex flag and by toLowerCase (computed character-wise so that it
evaluates by kernel reduction). -/
def jsToLower (s : String) : String := String.mk (s.toList.map Char.toLower)

/-- A character matched by the JS regex metacharacter for any character
(without the s flag): everything except the four line terminators. -/
def jsDot (c : Char) : Bool :=
  !(c == Char.ofNat 10 || c == Char.ofNat 13 ||
    c == Char.ofNat 0x2028 || c == Char.ofNat 0x2029)

/-- Embedding of isVersionFormatValid: tests the compiled pattern
with flags g,i, i.e. a 5-character d-dot-d-dot-d shape (the backslashes of
the intended digit escapes were consumed by the template literal) or the
word latest, case-insensitively. -/
def isVersionFormatValid (version : String) : Bool :=
  (match version.toList with
   | [c0, c1, c2, c3, c4] =>
       (c0.toLower == 'd') && jsDot c1 && (c2.toLower == 'd') && jsDot c3 &&
       (c4.toLower == 'd')
   | _ => false)
  || jsToLower version == "latest"

/- ## Downloader: downloadPackage (part_000 lines 197-238)

    let tmpError = null;
    let downloadErrorRetries = 5;
    do {
      tmpError = null;
      try { response = await client.get(url); }
      catch (error) { tmpError = error; downloadErrorRetries--; }
    } while (tmpError !== null && downloadErrorRetries >= 0);
    if (tmpError !== null) { throw tmpError; }
    ... stream response into the local file ...

The HTTP transport is an oracle mapping the attempt index (0-based) to the
outcome of that GET.  The do-while above performs the GET once, and after a
failure repeats while the decremented retry counter is still non-negative:
with the counter starting at 5 this is at most 6 attempts, and the error
finally thrown is tmpError, i.e. the error of the LAST failed attempt.
The local write stream is modelled as reliable; an ok result stands for the
artifact having been saved to the derived local file name. -/

/-- One round of the retry do-while: attempt the GET at index attempt;
on failure recurse while retries remain.  retries is the value of
downloadErrorRetries before the decrement of the current failure. -/
def downloadAttempts {e r : Type} (transport : Nat → Except e r) :
    Nat → Nat → Except e r
  | attempt, 0 => transport attempt
  | attempt, retries + 1 =>
    match transport attempt with
    | Except.ok v => Except.ok v
    | Except.error _ => downloadAttempts transport (attempt + 1) retries

/-- Embedding of downloadPackage: the retry loop started with
downloadErrorRetries = 5. -/
def downloadPackage {e r : Type} (transport : Nat → Except e r) : Except e r :=
  downloadAttempts transport 0 5

/- ## ArchiveInstaller: unzipFileTo and unzipFromUrl (part_000 245-256, 179-190) -/

/-- Embedding of unzipFileTo: the adm-zip extraction outcome is an oracle;
the try/catch turns any extraction failure into a logged console message and
the function returns normally either way.  The boolean payload records which
of the two log branches ran (true = extraction succeeded). -/
def unzipFileTo {e : Type} (extractOutcome : Except e Unit) : Except e Bool :=
  match extractOutcome with
  | Except.ok _ => Except.ok true
  | Except.error _ => Except.ok false

/-- Embedding of unzipFromUrl: downloadPackage (whose outcome, the saved
archive path, is the first oracle), then unzipFileTo, then tl.rmRF of the
downloaded archive.  The ok payload is the unzipFileTo outcome together with
the list of paths removed by rmRF. -/
def unzipFromUrl {e : Type} (downloadOutcome : Except e String)
    (extractOutcome : Except e Unit) : Except e (Bool × List String) :=
  match downloadOutcome with
  | Except.error err => Except.error err
  | Except.ok installZipPath =>
    match unzipFileTo extractOutcome with
    | Except.error err => Except.error err
    | Except.ok extracted => Except.ok (extracted, [installZipPath])

/- ## VersionResolver: getDependencyCheckDownloadUrl (part_000 lines 140-159)

The DCConst constants are declared in dependency-check-constants.ts (not in
scope here); their values are visible verbatim in
dependency-check-data-task.ts lines 10-11 and in the uses below. -/

def releaseApi : String :=
  "https://api.github.com/repos/jeremylong/DependencyCheck/releases"

def dependencyCheckVersionLatest : String := "latest"

def dependencyCheckFolderName : String := "dependency-check"

/-- An entry of the release-metadata assets array, with the two fields the
code reads. -/
structure Asset where
  content_type : String
  browser_download_url : String
deriving DecidableEq, Repr

/-- The parsed release-metadata JSON body, reduced to the assets array the
code reads. -/
structure ReleaseInfo where
  assets : List Asset
deriving DecidableEq, Repr

/-- The request URL computed by getDependencyCheckDownloadUrl:
initialized to the tags/v endpoint and overwritten with the latest endpoint
when the lower-cased version equals latest. -/
def dcRequestUrl (version : String) : String :=
  let url := releaseApi ++ "/tags/v" ++ version
  if jsToLower version = dependencyCheckVersionLatest
  then releaseApi ++ "/" ++ dependencyCheckVersionLatest
  else url

/-- Error kinds raised across the pipeline (the messages of the thrown JS
Error / TypeError values, reduced to their discriminating data). -/
inductive DCError where
  | invalidVersionFormat (version : String)
  | missingPath (p : String)
  | noZipAsset
  | transportError (code : Nat)
  | extractionError (code : Nat)
  | execFailed (exitCode : Int)
deriving DecidableEq, Repr

/-- Embedding of getDependencyCheckDownloadUrl: GET the computed request URL
(the metadata fetch is an oracle from URL to parsed body), select the first
asset whose content_type is application/zip, and return its
browser_download_url.  When no such asset exists the source dereferences
undefined (a TypeError), modelled as the noZipAsset error. -/
def getDependencyCheckDownloadUrl (fetch : String → ReleaseInfo)
    (version : String) : Except DCError String :=
  match (fetch (dcRequestUrl version)).assets.find?
      (fun a => a.content_type = "application/zip") with
  | some asset => Except.ok asset.browser_download_url
  | none => Except.error DCError.noZipAsset

/- ## ExecutionOptions: DependencyCheckOptionsBuilder and DependencyCheckOptions
(dependency-check-options.ts, dependency-check-options-builder.ts) -/

/-- Join of path components as performed by tl.resolve on its two-argument
uses in this code base (paths are treated as opaque strings throughout). -/
def pathJoin (a b : String) : String := a ++ "/" ++ b

/-- The builder state: the two defaults computed in the constructor plus the
four settable fields (the source keeps them in private underscore fields read
back through same-named getters). -/
structure DependencyCheckOptionsBuilder where
  defaultExportDirectory : String
  defaultLogFilePath : String
  exportDirectory : String
  isVerboseEnabled : Bool
  isUpdateOnlyEnabled : Bool
  logFilePath : String
deriving DecidableEq, Repr

/-- The builder constructor: defaultRootFolder is the artifact-staging
variable or "./" when unset (unset modelled as the empty string), the default
export directory is rootFolder/dependency-check, the default log file path is
defaultExportDirectory/dependency-check/dependency-check-log.txt, and the
settable fields start at the defaults (booleans at false). -/
def mkDependencyCheckOptionsBuilder (artifactStagingDirectory : String) :
    DependencyCheckOptionsBuilder :=
  let defaultRootFolder := if artifactStagingDirectory = "" then "./"
                           else artifactStagingDirectory
  let defaultExportDirectory := pathJoin defaultRootFolder dependencyCheckFolderName
  let defaultLogFilePath :=
    pathJoin (pathJoin defaultExportDirectory dependencyCheckFolderName)
      "dependency-check-log.txt"
  { defaultExportDirectory := defaultExportDirectory
  , defaultLogFilePath := defaultLogFilePath
  , exportDirectory := defaultExportDirectory
  , isVerboseEnabled := false
  , isUpdateOnlyEnabled := false
  , logFilePath := defaultLogFilePath }

/-- setExportDirectory: value?.trim() when truthy, else the default. -/
def DependencyCheckOptionsBuilder.setExportDirectory
    (b : DependencyCheckOptionsBuilder) (value : Option String) :
    DependencyCheckOptionsBuilder :=
  let trimmed := (value.getD "").trim
  { b with exportDirectory := if trimmed = "" then b.defaultExportDirectory
                              else trimmed }

def DependencyCheckOptionsBuilder.setIsVerboseEnabled
    (b : DependencyCheckOptionsBuilder) (value : Bool) :
    DependencyCheckOptionsBuilder :=
  { b with isVerboseEnabled := value }

def DependencyCheckOptionsBuilder.setIsUpdateOnlyEnabled
    (b : DependencyCheckOptionsBuilder) (value : Bool) :
    DependencyCheckOptionsBuilder :=
  { b with isUpdateOnlyEnabled := value }

def DependencyCheckOptionsBuilder.setLogFilePath
    (b : DependencyCheckOptionsBuilder) (value : String) :
    DependencyCheckOptionsBuilder :=
  { b with logFilePath := value }

/-- The built options object (dependency-check-options.ts). -/
structure DependencyCheckOptions where
  exportDirectory : String
  isUpdateOnlyEnabled : Bool
  isVerboseEnabled : Bool
  logFilePath : String
deriving DecidableEq, Repr

/-- The DependencyCheckOptions constructor (dependency-check-options.ts
lines 59-64).  Note line 61 of the source:
this._isUpdateOnlyEnabled = builder.isVerboseEnabled - the update-only field
is assigned from the builder's VERBOSE field. -/
def DependencyCheckOptionsBuilder.build (b : DependencyCheckOptionsBuilder) :
    DependencyCheckOptions :=
  { exportDirectory := b.exportDirectory
  , isUpdateOnlyEnabled := b.isVerboseEnabled
  , isVerboseEnabled := b.isVerboseEnabled
  , logFilePath := b.logFilePath }

/-- getExecutableArguments (dependency-check-options.ts lines 67-76):
the update-only flag, with the log flag and log file path appended when
verbose is enabled. -/
def DependencyCheckOptions.getExecutableArguments
    (o : DependencyCheckOptions) : String :=
  let args := "--updateonly"
  if o.isVerboseEnabled then args ++ " --log " ++ o.logFilePath else args

/- ## ArchiveInstaller: cleanDirectory (part_000 lines 168-172)

    let files = tl.findMatch(path, patterns);
    files.forEach(file => tl.rmRF(file));

The glob engine behind tl.findMatch lives in azure-pipelines-task-lib, not in
this repository.  Directory contents are modelled as lists of relative paths,
each a list of segments. -/

/-- Modelled from the spec: the glob segment matcher behind tl.findMatch
(the spec's pruneDirectory: resolves a glob-pattern set, supporting negated
patterns, against the directory).  A pattern segment list matches a path
segment list; the globstar segment matches zero or more path segments (hence
the remaining pattern may resume at any tail of the path), any other pattern
segment matches exactly the equal path segment. -/
def globMatch : List String → List String → Bool
  | [], p => p.isEmpty
  | q :: ps, p =>
    if q = "**" then p.tails.any (fun t => globMatch ps t)
    else
      match p with
      | [] => false
      | s :: ss => (q == s) && globMatch ps ss

/-- Splits a character list into its slash-separated segments, the
accumulator holding the current segment reversed. -/
def splitSegsAux : List Char → List Char → List String
  | acc, [] => [String.mk acc.reverse]
  | acc, c :: cs =>
    if c = '/' then String.mk acc.reverse :: splitSegsAux [] cs
    else splitSegsAux (c :: acc) cs

/-- Splits a pattern or path string into its slash-separated segments. -/
def splitSegs (cs : List Char) : List String := splitSegsAux [] cs

/-- Modelled from the spec: a raw findMatch pattern string parsed into its
negation flag (a leading exclamation mark) and its segment list. -/
def parseGlobPattern (pat : String) : Bool × List String :=
  match pat.toList with
  | [] => (false, splitSegs [])
  | c :: rest =>
    if c = '!' then (true, splitSegs rest) else (false, splitSegs (c :: rest))

/-- Modelled from the spec: whether the ordered include/exclude pattern list
of tl.findMatch selects a path - patterns are applied left to right, a plain
pattern adds its matches, a negated pattern removes its matches (the spec's
interleaved exclude patterns). -/
def findMatchSelects (patterns : List String) (p : List String) : Bool :=
  patterns.foldl
    (fun acc pat =>
      match parseGlobPattern pat with
      | (true, segs) => acc && !(globMatch segs p)
      | (false, segs) => acc || globMatch segs p)
    false

/-- Modelled from the spec: tl.findMatch filters the directory contents by
the pattern selection. -/
def findMatch (dirContents : List (List String)) (patterns : List String) :
    List (List String) :=
  dirContents.filter (fun p => findMatchSelects patterns p)

/-- Embedding of cleanDirectory: rmRF each found path.  rmRF removes a path
together with everything beneath it, so a path survives exactly when no
selected path is a prefix of it. -/
def cleanDirectory (dirContents : List (List String))
    (patterns : List String) : List (List String) :=
  let selected := findMatch dirContents patterns
  dirContents.filter (fun p => !(selected.any (fun q => List.isPrefixOf q p)))

/-- The pattern list the orchestrator passes to cleanDirectory
(part_000 line 104, data-task line 49). -/
def cleanPatterns : List String := ["**", "!data", "!data/**"]

/- ## ExternalToolRunner (part_000 lines 286-388) -/

/-- One tl.tool(...).exec invocation: the executable path, the argument
string, and the two exec options the code sets (their task-lib defaults are
false when the code passes no options). -/
structure ExecSpec where
  path : String
  args : String
  failOnStdErr : Bool
  ignoreReturnCode : Bool
deriving DecidableEq, Repr

/-- Whether an exec invocation rejects, given the process outcome
(exit code, whether anything was written to standard error): a non-zero exit
rejects unless ignoreReturnCode, standard-error output rejects only under
failOnStdErr. -/
def execThrows (s : ExecSpec) (outcome : Int × Bool) : Bool :=
  (decide (outcome.1 ≠ 0) && !s.ignoreReturnCode) ||
  (outcome.2 && s.failOnStdErr)

/-- The platform-specific script file name
(getDependencyCheckScriptPath, part_000 lines 286-300). -/
def dependencyCheckScriptName (platformWindows : Bool) : String :=
  if platformWindows then "dependency-check.bat" else "dependency-check.sh"

/-- The smoke-test invocation: the version argument, executed with default
exec options (part_000 line 381). -/
def smokeTestSpec (script : String) : ExecSpec :=
  { path := script, args := "--version"
  , failOnStdErr := false, ignoreReturnCode := false }

/-- The update invocation (runDependencyCheck, part_000 lines 347-357):
the getExecutableArguments string, with failOnStdErr false and
ignoreReturnCode true. -/
def updateRunSpec (script : String) (o : DependencyCheckOptions) : ExecSpec :=
  { path := script, args := o.getExecutableArguments
  , failOnStdErr := false, ignoreReturnCode := true }

/-- The side effects performed by the pipeline, in order. -/
inductive Effect where
  | mkdirP (p : String)
  | checkPath (p : String)
  | cleanDir (p : String) (patterns : List String)
  | downloadExtract (url : String) (target : String)
  | setJavaOpts (value : String)
  | removeLocks (dir : String)
  | execTool (spec : ExecSpec)
  | logExitCode (code : Int)
  | setResultFailed (err : DCError)
deriving DecidableEq, Repr

/-- Embedding of updateDependencyCheckData (part_000 lines 366-388):
locate the platform script under dir/bin (tl.checkPath throws when the
resolved path is missing), set the JAVA_OPTS stack-size variable, run the
version smoke test with default exec options (a rejection propagates), then
remove stale lock files when no local installation is used, and run the
update invocation whose exit code is only captured and logged.  The process
outcomes are an oracle from the invocation index (0 = smoke test,
1 = update run) to (exit code, standard-error output seen). -/
def updateDependencyCheckData (dir : String) (hasLocalInstallation : Bool)
    (o : DependencyCheckOptions) (platformWindows : Bool)
    (existingPaths : List String) (exec : Nat → Int × Bool) :
    List Effect × Option DCError :=
  let script := pathJoin (pathJoin dir "bin")
    (dependencyCheckScriptName platformWindows)
  if existingPaths.contains script = false then
    ([Effect.checkPath script], some (DCError.missingPath script))
  else
    let smoke := smokeTestSpec script
    let e0 := [Effect.checkPath script, Effect.setJavaOpts "-Xss8192k",
               Effect.execTool smoke]
    if execThrows smoke (exec 0) then
      (e0, some (DCError.execFailed (exec 0).1))
    else
      let locks := if hasLocalInstallation then []
                   else [Effect.removeLocks dir]
      (e0 ++ locks ++ [Effect.execTool (updateRunSpec script o),
                       Effect.logExitCode (exec 1).1], none)

/- ## InstallationOrchestrator: run (part_000 lines 30-119, data-task lines 14-59) -/

/-- JS truthiness of an optional trimmed string input: defined and
non-empty. -/
def isTruthy : Option String → Bool
  | none => false
  | some s => s != ""

/-- The install directory both variants resolve
(tl.resolve of the working directory and the folder name). -/
def installDir : String := pathJoin "." dependencyCheckFolderName

/-- The inputs, pipeline variables and I/O oracles one run sees.  String
inputs are the already-trimmed values the source computes; downloadPkg is the
outcome of downloadPackage for a given URL (the saved archive path, or the
error surviving its retry loop); existingPaths models tl.exist / tl.checkPath
over the paths relevant to the run. -/
structure Env where
  customRepoUrl : Option String
  dependencyCheckVersion : String
  enableVerbose : Bool
  localInstallPath : String
  logDirectory : String
  exportDirectory : String
  sourcesDirectory : String
  artifactDirectory : String
  platformWindows : Bool
  existingPaths : List String
  fetch : String → ReleaseInfo
  downloadPkg : String → Except DCError String
  extractOutcome : Except DCError Unit
  exec : Nat → Int × Bool

/-- The log directory after the sources-directory sentinel defaulting
(part_000 lines 52-54). -/
def logDirOf (env : Env) : String :=
  if env.logDirectory = env.sourcesDirectory
  then pathJoin env.artifactDirectory dependencyCheckFolderName
  else env.logDirectory

/-- The export directory after the sources-directory sentinel defaulting
(part_000 lines 63-65). -/
def expDirOf (env : Env) : String :=
  if env.exportDirectory = env.sourcesDirectory
  then pathJoin env.artifactDirectory dependencyCheckFolderName
  else env.exportDirectory

/-- The directory-setup effects of the part_000 run (lines 51-71): create
the log directory and the export directory when missing. -/
def dirSetupEffects (env : Env) : List Effect :=
  (if env.existingPaths.contains (logDirOf env) then []
   else [Effect.mkdirP (logDirOf env)]) ++
  (if (if env.existingPaths.contains (logDirOf env) then env.existingPaths
       else logDirOf env :: env.existingPaths).contains (expDirOf env)
   then []
   else [Effect.mkdirP (expDirOf env)])

/-- The filesystem paths existing after the directory setup. -/
def dirSetupPaths (env : Env) : List String :=
  let fs1 := if env.existingPaths.contains (logDirOf env) then env.existingPaths
             else logDirOf env :: env.existingPaths
  if fs1.contains (expDirOf env) then fs1 else expDirOf env :: fs1

/-- The options the part_000 run builds (lines 74-81): export directory set
to the defaulted export directory, update-only set to true, verbose set to
the input, log file path set to the log file under the log directory. -/
def runOptions (env : Env) : DependencyCheckOptions :=
  ((((mkDependencyCheckOptionsBuilder env.artifactDirectory).setExportDirectory
      (some (expDirOf env))).setIsUpdateOnlyEnabled
      true).setIsVerboseEnabled env.enableVerbose).setLogFilePath
    (pathJoin (logDirOf env) "dependency-check-log.txt")
    |>.build

/-- The download URL the run uses: the custom repository URL verbatim when
truthy, otherwise the GitHub release-metadata resolution (part_000 lines
95-102, data-task lines 39-47). -/
def chooseInstallZipUrl (env : Env) : Except DCError String :=
  if isTruthy env.customRepoUrl
  then Except.ok (env.customRepoUrl.getD "")
  else getDependencyCheckDownloadUrl env.fetch env.dependencyCheckVersion

/-- The part_000 install branch (lines 88-107), entered when the local
install path equals the sources directory: mkdirP the install directory,
choose the URL, clean the install directory keeping data, download and
extract into the working directory, then run the data update. -/
def installBranchPart000 (env : Env) : List Effect × Option DCError :=
  match chooseInstallZipUrl env with
  | Except.error err => ([Effect.mkdirP installDir], some err)
  | Except.ok installZipUrl =>
    match unzipFromUrl (env.downloadPkg installZipUrl) env.extractOutcome with
    | Except.error err =>
      ([Effect.mkdirP installDir,
        Effect.cleanDir installDir cleanPatterns], some err)
    | Except.ok _ =>
      let upd := updateDependencyCheckData installDir false (runOptions env)
        env.platformWindows (installDir :: dirSetupPaths env) env.exec
      ([Effect.mkdirP installDir,
        Effect.cleanDir installDir cleanPatterns,
        Effect.downloadExtract installZipUrl "./"] ++ upd.1, upd.2)

/-- The try-block body of the part_000 run: directory defaulting and
creation, options building, version validation, then either the
download/install branch (install path equal to the sources-directory
sentinel) or the checkPath of a caller-supplied install path.  Returns the
effects performed and the error reaching the top-level catch, if any. -/
def runBodyPart000 (env : Env) : List Effect × Option DCError :=
  let setup := dirSetupEffects env
  if isVersionFormatValid env.dependencyCheckVersion = false then
    (setup, some (DCError.invalidVersionFormat env.dependencyCheckVersion))
  else if env.localInstallPath = env.sourcesDirectory then
    let main := installBranchPart000 env
    (setup ++ main.1, main.2)
  else if env.localInstallPath = "" then
    (setup, none)
  else if (dirSetupPaths env).contains env.localInstallPath then
    (setup ++ [Effect.checkPath env.localInstallPath], none)
  else
    (setup ++ [Effect.checkPath env.localInstallPath],
     some (DCError.missingPath env.localInstallPath))

/-- The part_000 run: the body wrapped in the top-level try/catch, which
logs the error message and sets the failed task result. -/
def runPart000 (env : Env) : List Effect :=
  match runBodyPart000 env with
  | (effects, none) => effects
  | (effects, some err) => effects ++ [Effect.setResultFailed err]

/-- The try-block body of the dependency-check-data-task.ts run: version
validation, then - when the install path equals the sources-directory
sentinel - tl.checkPath of ./dependency-check (which THROWS when the
directory is missing), URL choice, cleanDirectory and unzipFromUrl.  No
update step and no directory setup exist in this variant. -/
def runBodyDataTask (env : Env) : List Effect × Option DCError :=
  if isVersionFormatValid env.dependencyCheckVersion = false then
    ([], some (DCError.invalidVersionFormat env.dependencyCheckVersion))
  else if env.localInstallPath = env.sourcesDirectory then
    if env.existingPaths.contains installDir = false then
      ([Effect.checkPath installDir], some (DCError.missingPath installDir))
    else
      match chooseInstallZipUrl env with
      | Except.error err => ([Effect.checkPath installDir], some err)
      | Except.ok installZipUrl =>
        match unzipFromUrl (env.downloadPkg installZipUrl)
            env.extractOutcome with
        | Except.error err =>
          ([Effect.checkPath installDir,
            Effect.cleanDir installDir cleanPatterns], some err)
        | Except.ok _ =>
          ([Effect.checkPath installDir,
            Effect.cleanDir installDir cleanPatterns,
            Effect.downloadExtract installZipUrl "./"], none)
  else ([], none)

/-- The dependency-check-data-task.ts run: the body wrapped in the same
top-level try/catch. -/
def runDataTask (env : Env) : List Effect :=
  match runBodyDataTask env with
  | (effects, none) => effects
  | (effects, some err) => effects ++ [Effect.setResultFailed err]

/- ## Sample inputs and decidability helpers for the witnesses -/

/-- Decidable equality of Except values with decidable components. -/
instance exceptDecidableEq {e r : Type} [DecidableEq e] [DecidableEq r] :
    DecidableEq (Except e r) := fun x y =>
  match x, y with
  | Except.ok a, Except.ok b =>
    if h : a = b then isTrue (by rw [h]) else isFalse (by simp [h])
  | Except.ok _, Except.error _ => isFalse (by simp)
  | Except.error _, Except.ok _ => isFalse (by simp)
  | Except.error a, Except.error b =>
    if h : a = b then isTrue (by rw [h]) else isFalse (by simp [h])

/-- A transport whose attempt with index i fails with error i. -/
def cexTransport : Nat → Except Nat Unit := fun i => Except.error i

/-- A transport failing on attempts 0..2 and succeeding on attempt 3. -/
def witTransport : Nat → Except Nat Nat :=
  fun i => if i < 3 then Except.error i else Except.ok 7

/-- A release-metadata oracle whose assets hold a gzip asset followed by the
zip asset with download URL X. -/
def witFetch : String → ReleaseInfo := fun _ =>
  ⟨[⟨"application/gzip", "Y"⟩, ⟨"application/zip", "X"⟩]⟩

/-- A sample directory listing with content beside and beneath data. -/
def dirC6 : List (List String) :=
  [["a"], ["data"], ["data", "x"], ["b", "c"]]

/-- An environment whose requested version fails the format validation
(the empty custom URL input is absent, the install path input is unset). -/
def envC7 : Env :=
  { customRepoUrl := none
  , dependencyCheckVersion := "x.y.z"
  , enableVerbose := false
  , localInstallPath := ""
  , logDirectory := "L"
  , exportDirectory := "E"
  , sourcesDirectory := "S"
  , artifactDirectory := "A"
  , platformWindows := false
  , existingPaths := ["L", "E"]
  , fetch := fun _ => ⟨[]⟩
  , downloadPkg := fun _ => Except.error (DCError.transportError 0)
  , extractOutcome := Except.ok ()
  , exec := fun _ => (0, false) }

/-- An environment with the sentinel install path, a custom archive URL and
no pre-existing install directory. -/
def envC8 : Env :=
  { customRepoUrl := some "https://example.org/dc.zip"
  , dependencyCheckVersion := "latest"
  , enableVerbose := false
  , localInstallPath := "S"
  , logDirectory := "L"
  , exportDirectory := "E"
  , sourcesDirectory := "S"
  , artifactDirectory := "A"
  , platformWindows := false
  , existingPaths := []
  , fetch := fun _ => ⟨[]⟩
  , downloadPkg := fun _ => Except.ok "dc.zip"
  , extractOutcome := Except.ok ()
  , exec := fun _ => (0, false) }

/-- The options object of the C9 witness run (verbose enabled). -/
def oC9 : DependencyCheckOptions :=
  { exportDirectory := "E"
  , isUpdateOnlyEnabled := true
  , isVerboseEnabled := true
  , logFilePath := "LOG" }

/- ## Theorems -/

/-- Claim C1: the claim states isVersionFormatValid accepts exactly latest
(any case) or a single-digit dotted triple, with "1.2.3" accepted.  The code
as written disagrees: the template literal consumed the backslashes of the
digit escapes, so the compiled pattern is the d-dot-d-dot-d / latest
alternation - "1.2.3" is rejected while "d.d.d" and "DxDxD" are accepted.
This theorem evaluates the embedded function at the claim's sample inputs
and at the divergent inputs. -/
theorem isVersionFormatValid_behaviour :
    isVersionFormatValid "1.2.3" = false ∧
    isVersionFormatValid "10.2.3" = false ∧
    isVersionFormatValid "latest" = true ∧
    isVersionFormatValid "LATEST" = true ∧
    isVersionFormatValid "v1.2.3" = false ∧
    isVersionFormatValid "d.d.d" = true ∧
    isVersionFormatValid "DxDxD" = true := by decide

/-- downloadAttempts yields the first successful transport outcome when the
success lies within the retry budget. -/
theorem downloadAttempts_ok_of_firstOk {e r : Type} (t : Nat → Except e r) :
    ∀ (n k a : Nat) (v : r), k ≤ n →
      (∀ i, i < k → (t (a + i)).isOk = false) →
      t (a + k) = Except.ok v → downloadAttempts t a n = Except.ok v := by
  intro n
  induction n with
  | zero =>
    intro k a v hk _ hok
    interval_cases k
    simpa [downloadAttempts] using hok
  | succ n ih =>
    intro k a v hk hfail hok
    cases k with
    | zero =>
      have h0 : t a = Except.ok v := by simpa using hok
      simp [downloadAttempts, h0]
    | succ j =>
      have h0 : (t a).isOk = false := by
        simpa using hfail 0 (Nat.succ_pos j)
      cases ht : t a with
      | ok w => rw [ht] at h0; simp [Except.isOk, Except.toBool] at h0
      | error err =>
        have step : downloadAttempts t a (n + 1) =
            downloadAttempts t (a + 1) n := by
          simp [downloadAttempts, ht]
        rw [step]
        refine ih j (a + 1) v (Nat.succ_le_succ_iff.mp hk) ?_ ?_
        · intro i hi
          have := hfail (i + 1) (Nat.succ_lt_succ hi)
          simpa [Nat.add_assoc, Nat.add_comm 1 i] using this
        · simpa [Nat.add_assoc, Nat.add_comm 1 j] using hok

/-- When every attempt in the budget fails, downloadAttempts returns the
error of the last attempt. -/
theorem downloadAttempts_error_of_allFail {e r : Type} (t : Nat → Except e r) :
    ∀ (n a : Nat) (err : e), (∀ i, i < n → (t (a + i)).isOk = false) →
      t (a + n) = Except.error err →
      downloadAttempts t a n = Except.error err := by
  intro n
  induction n with
  | zero =>
    intro a err _ hlast
    simpa [downloadAttempts] using hlast
  | succ n ih =>
    intro a err hfail hlast
    have h0 : (t a).isOk = false := by simpa using hfail 0 (Nat.succ_pos n)
    cases ht : t a with
    | ok w => rw [ht] at h0; simp [Except.isOk, Except.toBool] at h0
    | error e0 =>
      have step : downloadAttempts t a (n + 1) =
          downloadAttempts t (a + 1) n := by
        simp [downloadAttempts, ht]
      rw [step]
      refine ih (a + 1) err ?_ ?_
      · intro i hi
        have := hfail (i + 1) (Nat.succ_lt_succ hi)
        simpa [Nat.add_assoc, Nat.add_comm 1 i] using this
      · simpa [Nat.add_assoc, Nat.add_comm 1 n] using hlast

/-- downloadAttempts only consults the transport inside its attempt
window. -/
theorem downloadAttempts_congr {e r : Type} (t1 t2 : Nat → Except e r) :
    ∀ (n a : Nat), (∀ i, i ≤ n → t1 (a + i) = t2 (a + i)) →
      downloadAttempts t1 a n = downloadAttempts t2 a n := by
  intro n
  induction n with
  | zero =>
    intro a h
    simpa [downloadAttempts] using h 0 (Nat.le_refl 0)
  | succ n ih =>
    intro a h
    have h0 : t1 a = t2 a := by simpa using h 0 (Nat.zero_le _)
    simp only [downloadAttempts, h0]
    cases t2 a with
    | ok v => rfl
    | error e0 =>
      refine ih (a + 1) ?_
      intro i hi
      have := h (i + 1) (Nat.succ_le_succ hi)
      simpa [Nat.add_assoc, Nat.add_comm 1 i] using this

/-- Claim C2 (amended): downloadPackage performs at most 6 GET attempts
(its outcome only depends on transport attempts 0..5); if the first k
attempts fail (k at most 5) and attempt k succeeds, the artifact is saved
and no error is raised; if all 6 attempts fail, the error re-raised is the
one of the LAST (sixth) failed attempt - tmpError is overwritten on every
failure, so the first attempt's error is not the one thrown. -/
theorem downloadPackage_retry_behaviour {e r : Type}
    (transport : Nat → Except e r) :
    (∀ k v, k ≤ 5 → (∀ i, i < k → (transport i).isOk = false) →
       transport k = Except.ok v → downloadPackage transport = Except.ok v)
    ∧ (∀ err, (∀ i, i < 5 → (transport i).isOk = false) →
       transport 5 = Except.error err →
       downloadPackage transport = Except.error err)
    ∧ (∀ t2 : Nat → Except e r, (∀ i, i ≤ 5 → transport i = t2 i) →
       downloadPackage transport = downloadPackage t2) := by
  refine ⟨?_, ?_, ?_⟩
  · intro k v hk hfail hok
    exact downloadAttempts_ok_of_firstOk transport 5 k 0 v hk
      (by simpa using hfail) (by simpa using hok)
  · intro err hfail hlast
    exact downloadAttempts_error_of_allFail transport 5 0 err
      (by simpa using hfail) (by simpa using hlast)
  · intro t2 h
    exact downloadAttempts_congr transport t2 5 0 (by simpa using h)

/-- Claim C2 counterexample: with every attempt failing and the attempts
carrying distinct errors 0..5, downloadPackage re-raises the error of
attempt index 5 (the sixth and last attempt), not the error of the first
failed attempt (index 0) as the claim states. -/
theorem downloadPackage_reraises_last_error :
    downloadPackage cexTransport = Except.error 5 ∧
    downloadPackage cexTransport ≠ Except.error 0 := by decide

/-- Witness for the C2 theorem: three transport failures followed by a
success on the fourth attempt yield the saved artifact with no error. -/
theorem downloadPackage_retry_behaviour_witness :
    downloadPackage witTransport = Except.ok 7 :=
  (downloadPackage_retry_behaviour witTransport).1 3 7 (by decide)
    (by decide) (by decide)

/-- Claim C3: unzipFileTo never raises - every extraction outcome, failures
included, yields a normal return - and every completed unzipFromUrl call
removes the downloaded archive file (the rmRF of the archive path runs even
when extraction failed, since the swallowed failure still returns
normally). -/
theorem unzip_swallows_errors_and_removes_zip {e : Type}
    (extractOutcome : Except e Unit) (downloadOutcome : Except e String) :
    (∃ b, unzipFileTo extractOutcome = Except.ok b)
    ∧ (∀ p, downloadOutcome = Except.ok p →
        ∃ b, unzipFromUrl downloadOutcome extractOutcome =
          Except.ok (b, [p])) := by
  constructor
  · cases extractOutcome with
    | ok u => exact ⟨true, rfl⟩
    | error err => exact ⟨false, rfl⟩
  · intro p hp
    subst hp
    cases extractOutcome with
    | ok u => exact ⟨true, rfl⟩
    | error err => exact ⟨false, rfl⟩

/-- Witness for the C3 theorem: a failing extraction still returns normally
and the archive pkg.zip is still removed. -/
theorem unzip_swallows_errors_and_removes_zip_witness :
    (∃ b, unzipFileTo (Except.error 3 : Except Nat Unit) = Except.ok b)
    ∧ (∃ b, unzipFromUrl (Except.ok "pkg.zip")
        (Except.error 3 : Except Nat Unit) = Except.ok (b, ["pkg.zip"])) := by
  have h := unzip_swallows_errors_and_removes_zip
    (Except.error 3 : Except Nat Unit) (Except.ok "pkg.zip")
  exact ⟨h.1, h.2 "pkg.zip" rfl⟩

/-- Claim C4: the queried endpoint is releases/latest exactly when the
lower-cased version is latest and releases/tags/v-version otherwise, and the
returned URL is the browser_download_url of the first asset whose
content_type is application/zip. -/
theorem getDependencyCheckDownloadUrl_spec (fetch : String → ReleaseInfo)
    (version : String) :
    (dcRequestUrl version =
       if jsToLower version = "latest" then releaseApi ++ "/latest"
       else releaseApi ++ "/tags/v" ++ version)
    ∧ (∀ a, (fetch (dcRequestUrl version)).assets.find?
          (fun x => x.content_type = "application/zip") = some a →
        getDependencyCheckDownloadUrl fetch version =
          Except.ok a.browser_download_url) := by
  constructor
  · by_cases h : jsToLower version = "latest"
    · simp only [dcRequestUrl, dependencyCheckVersionLatest, h, if_pos]
      rfl
    · simp only [dcRequestUrl, dependencyCheckVersionLatest, h, if_neg,
        ite_false]
  · intro a ha
    simp [getDependencyCheckDownloadUrl, ha]

/-- Witness for the C4 theorem: at version latest the metadata response with
a zip asset of URL X resolves to X. -/
theorem getDependencyCheckDownloadUrl_spec_witness :
    getDependencyCheckDownloadUrl witFetch "latest" = Except.ok "X" :=
  (getDependencyCheckDownloadUrl_spec witFetch "latest").2
    ⟨"application/zip", "X"⟩ (by decide)

/-- Claim C5: the built options copy the builder's verbose flag into BOTH
isVerboseEnabled and isUpdateOnlyEnabled (dependency-check-options.ts line
61), while exportDirectory and logFilePath are copied from their namesakes;
hence setIsUpdateOnlyEnabled has no effect on the built options and the
built update-only flag equals the verbose input. -/
theorem build_updateOnly_equals_verbose (b : DependencyCheckOptionsBuilder) :
    (b.build).isUpdateOnlyEnabled = b.isVerboseEnabled ∧
    (b.build).isVerboseEnabled = b.isVerboseEnabled ∧
    (b.build).exportDirectory = b.exportDirectory ∧
    (b.build).logFilePath = b.logFilePath ∧
    (∀ v : Bool, (b.setIsUpdateOnlyEnabled v).build = b.build) ∧
    (∀ verbose : Bool,
      ((b.setIsUpdateOnlyEnabled true).setIsVerboseEnabled
        verbose).build.isUpdateOnlyEnabled = verbose) :=
  ⟨rfl, rfl, rfl, rfl, fun _ => rfl, fun _ => rfl⟩

/-- The globstar pattern alone matches every path. -/
theorem globMatch_globstar (p : List String) : globMatch ["**"] p = true := by
  have hmem : ([] : List String) ∈ p.tails :=
    (List.mem_tails _ _).mpr List.nil_suffix
  have hany : p.tails.any (fun t => globMatch [] t) = true :=
    List.any_eq_true.mpr ⟨[], hmem, rfl⟩
  calc globMatch ["**"] p
      = p.tails.any (fun t => globMatch [] t) := rfl
    _ = true := hany

/-- The single-segment data pattern matches exactly the path data. -/
theorem globMatch_litData (p : List String) :
    globMatch ["data"] p = true ↔ p = ["data"] := by
  cases p with
  | nil =>
    rw [show globMatch ["data"] ([] : List String) = false from rfl]
    simp
  | cons s ss =>
    rw [show globMatch ["data"] (s :: ss) =
        ((("data" : String) == s) && ss.isEmpty) from rfl]
    simp only [Bool.and_eq_true, beq_iff_eq, List.isEmpty_iff,
      List.cons.injEq]
    exact ⟨fun ⟨a, b⟩ => ⟨a.symm, b⟩, fun ⟨a, b⟩ => ⟨a.symm, b⟩⟩

/-- The data-globstar pattern matches exactly the paths whose first segment
is data. -/
theorem globMatch_dataGlobstar (p : List String) :
    globMatch ["data", "**"] p = true ↔ p.head? = some "data" := by
  cases p with
  | nil =>
    rw [show globMatch ["data", "**"] ([] : List String) = false from rfl]
    simp
  | cons s ss =>
    rw [show globMatch ["data", "**"] (s :: ss) =
        ((("data" : String) == s) && globMatch ["**"] ss) from rfl]
    simp only [globMatch_globstar, Bool.and_true, beq_iff_eq,
      List.head?_cons, Option.some.injEq]
    exact eq_comm

/-- Unfolding of the selection made by the orchestrator's pattern list. -/
theorem findMatchSelects_cleanPatterns_eq (p : List String) :
    findMatchSelects cleanPatterns p =
      (((false || globMatch ["**"] p) && !(globMatch ["data"] p)) &&
        !(globMatch ["data", "**"] p)) := rfl

/-- The orchestrator's pattern list selects exactly the paths whose first
segment is not data. -/
theorem findMatchSelects_cleanPatterns (p : List String) :
    findMatchSelects cleanPatterns p = true ↔ ¬ p.head? = some "data" := by
  rw [findMatchSelects_cleanPatterns_eq, globMatch_globstar]
  simp only [Bool.false_or, Bool.true_and, Bool.and_eq_true,
    Bool.not_eq_true', Bool.eq_false_iff, ne_eq, globMatch_litData,
    globMatch_dataGlobstar]
  constructor
  · rintro ⟨-, h⟩
    exact h
  · intro h
    exact ⟨fun hp => h (by rw [hp]; rfl), h⟩

/-- Claim C6: cleaning with the orchestrator's pattern list deletes every
path under the directory except the data subdirectory and everything beneath
it, which remain: a path survives exactly when its first segment is data.
The hypothesis excludes the directory root itself from the listed contents
(tl.findMatch enumerates items beneath the root).  spec-modelled: the glob
semantics of tl.findMatch live in azure-pipelines-task-lib. -/
theorem cleanDirectory_keeps_exactly_data (dir : List (List String))
    (hroot : ([] : List String) ∉ dir) (p : List String) :
    p ∈ cleanDirectory dir cleanPatterns ↔
      p ∈ dir ∧ p.head? = some "data" := by
  unfold cleanDirectory findMatch
  rw [List.mem_filter]
  simp only [Bool.not_eq_true', List.any_eq_false, List.mem_filter]
  constructor
  · rintro ⟨hp, hall⟩
    refine ⟨hp, ?_⟩
    by_contra hhead
    have hsel : findMatchSelects cleanPatterns p = true :=
      (findMatchSelects_cleanPatterns p).mpr hhead
    have := hall p ⟨hp, hsel⟩
    rw [ List.isPrefixOf_iff_prefix] at this
    exact this (List.prefix_refl p)
  · rintro ⟨hp, hhead⟩
    refine ⟨hp, ?_⟩
    rintro q ⟨hq, hqsel⟩
    rw [ List.isPrefixOf_iff_prefix]
    intro hpre
    have hqhead : ¬ q.head? = some "data" :=
      (findMatchSelects_cleanPatterns q).mp hqsel
    cases q with
    | nil => exact hroot hq
    | cons a qt =>
      obtain ⟨t, ht⟩ := hpre
      apply hqhead
      rw [List.head?_cons]
      rw [← ht] at hhead
      simpa using hhead

/-- Witness for the C6 theorem: in the sample directory, the path data/x
survives the clean because its first segment is data. -/
theorem cleanDirectory_keeps_exactly_data_witness :
    (([] : List String) ∉ dirC6) ∧
    (["data", "x"] ∈ cleanDirectory dirC6 cleanPatterns ↔
      ["data", "x"] ∈ dirC6 ∧
        (["data", "x"] : List String).head? = some "data") :=
  ⟨by decide, cleanDirectory_keeps_exactly_data dirC6 (by decide) ["data", "x"]⟩

/-- The update step never emits the failed-task-result effect itself. -/
theorem updateDependencyCheckData_no_fail_effect (dir : String)
    (hasLocal : Bool) (o : DependencyCheckOptions) (w : Bool)
    (existing : List String) (ex : Nat → Int × Bool) (err : DCError) :
    Effect.setResultFailed err ∉
      (updateDependencyCheckData dir hasLocal o w existing ex).1 := by
  simp only [updateDependencyCheckData]
  split_ifs <;> simp

/-- The part_000 install branch never emits the failed-task-result effect
itself. -/
theorem installBranchPart000_no_fail_effect (env : Env) (err : DCError) :
    Effect.setResultFailed err ∉ (installBranchPart000 env).1 := by
  unfold installBranchPart000
  split
  · simp
  · split
    · simp
    · simpa using updateDependencyCheckData_no_fail_effect installDir false
        (runOptions env) env.platformWindows (installDir :: dirSetupPaths env)
        env.exec err

/-- The directory setup never emits the failed-task-result effect. -/
theorem dirSetupEffects_no_fail_effect (env : Env) (err : DCError) :
    Effect.setResultFailed err ∉ dirSetupEffects env := by
  unfold dirSetupEffects
  split <;> split <;> simp

/-- The part_000 try-block body never emits the failed-task-result effect
itself (the catch alone does). -/
theorem runBodyPart000_no_fail_effect (env : Env) (err : DCError) :
    Effect.setResultFailed err ∉ (runBodyPart000 env).1 := by
  unfold runBodyPart000
  have hsetup := dirSetupEffects_no_fail_effect env err
  have hmain := installBranchPart000_no_fail_effect env err
  split
  · simpa using hsetup
  · split
    · simp only []
      simp [hsetup, hmain]
    · split
      · simpa using hsetup
      · split <;> simp [hsetup]

/-- The data-task try-block body never emits the failed-task-result effect
itself. -/
theorem runBodyDataTask_no_fail_effect (env : Env) (err : DCError) :
    Effect.setResultFailed err ∉ (runBodyDataTask env).1 := by
  unfold runBodyDataTask
  split
  · simp
  · split
    · split
      · simp
      · split
        · simp
        · split <;> simp
    · simp

/-- Claim C7: in both run variants every exception raised anywhere in the
try-block body is caught exactly once at the top level and converted into
the failed-task-result effect appended after the body's effects (the body
itself never sets a failed result), and an error-free body completes with no
failed result set. -/
theorem run_top_level_catch (env : Env) :
    ((∀ err : DCError, Effect.setResultFailed err ∉ (runBodyPart000 env).1)
     ∧ ((runBodyPart000 env).2 = none →
         runPart000 env = (runBodyPart000 env).1)
     ∧ (∀ err, (runBodyPart000 env).2 = some err →
         runPart000 env = (runBodyPart000 env).1 ++
           [Effect.setResultFailed err]))
    ∧ ((∀ err : DCError, Effect.setResultFailed err ∉ (runBodyDataTask env).1)
     ∧ ((runBodyDataTask env).2 = none →
         runDataTask env = (runBodyDataTask env).1)
     ∧ (∀ err, (runBodyDataTask env).2 = some err →
         runDataTask env = (runBodyDataTask env).1 ++
           [Effect.setResultFailed err])) := by
  refine ⟨⟨fun err => runBodyPart000_no_fail_effect env err, ?_, ?_⟩,
          ⟨fun err => runBodyDataTask_no_fail_effect env err, ?_, ?_⟩⟩
  · intro hnone
    simp only [runPart000]
    rcases hbody : runBodyPart000 env with ⟨tr, opt⟩
    rw [hbody] at hnone
    simp only at hnone
    subst hnone
    rfl
  · intro err herr
    simp only [runPart000]
    rcases hbody : runBodyPart000 env with ⟨tr, opt⟩
    rw [hbody] at herr
    simp only at herr
    subst herr
    rfl
  · intro hnone
    simp only [runDataTask]
    rcases hbody : runBodyDataTask env with ⟨tr, opt⟩
    rw [hbody] at hnone
    simp only at hnone
    subst hnone
    rfl
  · intro err herr
    simp only [runDataTask]
    rcases hbody : runBodyDataTask env with ⟨tr, opt⟩
    rw [hbody] at herr
    simp only at herr
    subst herr
    rfl

/-- Witness for the C7 theorem: a body that throws (invalid version format)
completes with the failed-task-result effect appended once after the body's
effects. -/
theorem run_top_level_catch_witness :
    runPart000 envC7 = (runBodyPart000 envC7).1 ++
      [Effect.setResultFailed (DCError.invalidVersionFormat "x.y.z")] :=
  (run_top_level_catch envC7).1.2.2 (DCError.invalidVersionFormat "x.y.z")
    (by decide)

/-- A successfully downloaded archive always reaches the rmRF of the
archive, whatever the extraction outcome. -/
theorem unzipFromUrl_ok {e : Type} (ex : Except e Unit) (p : String) :
    ∃ b, unzipFromUrl (Except.ok p) ex = Except.ok (b, [p]) := by
  cases ex with
  | ok u => exact ⟨true, rfl⟩
  | error err => exact ⟨false, rfl⟩

/-- Claim C8 (amended, part_000 behaviour): when the local install path
input equals the build sources directory, the part_000 orchestrator creates
the install directory with mkdirP (whether or not it already exists), then
cleans it with the data-preserving patterns, then downloads and extracts the
archive into the working directory - in particular the install directory
need not pre-exist (hypothesis h6).  In the data-task variant the claim
fails: see the counterexample, where checkPath demands a pre-existing
directory. -/
theorem runPart000_installs_at_sentinel (env : Env) (u zp : String)
    (h1 : env.localInstallPath = env.sourcesDirectory)
    (h2 : env.customRepoUrl = some u) (h3 : u ≠ "")
    (h4 : isVersionFormatValid env.dependencyCheckVersion = true)
    (h5 : env.downloadPkg u = Except.ok zp)
    (h6 : installDir ∉ env.existingPaths) :
    ∃ rest errOpt,
      runBodyPart000 env =
        (dirSetupEffects env ++
          ([Effect.mkdirP installDir,
            Effect.cleanDir installDir cleanPatterns,
            Effect.downloadExtract u "./"] ++ rest), errOpt) := by
  have hurl : chooseInstallZipUrl env = Except.ok u := by
    simp [chooseInstallZipUrl, isTruthy, h2, h3]
  obtain ⟨b, hb⟩ := unzipFromUrl_ok env.extractOutcome zp
  have hmain : installBranchPart000 env =
      ([Effect.mkdirP installDir,
        Effect.cleanDir installDir cleanPatterns,
        Effect.downloadExtract u "./"] ++
        (updateDependencyCheckData installDir false (runOptions env)
          env.platformWindows (installDir :: dirSetupPaths env) env.exec).1,
       (updateDependencyCheckData installDir false (runOptions env)
          env.platformWindows (installDir :: dirSetupPaths env) env.exec).2) := by
    simp [installBranchPart000, hurl, h5, hb]
  refine ⟨(updateDependencyCheckData installDir false (runOptions env)
      env.platformWindows (installDir :: dirSetupPaths env) env.exec).1,
    (updateDependencyCheckData installDir false (runOptions env)
      env.platformWindows (installDir :: dirSetupPaths env) env.exec).2, ?_⟩
  simp [runBodyPart000, h4, h1, hmain]

/-- Claim C8 counterexample: in the dependency-check-data-task.ts variant
of run, under the sentinel install path and a missing ./dependency-check
directory, the run performs only checkPath and fails - it neither creates
the directory nor downloads anything, so the claim that the orchestrator
creates the install directory when missing and does not require it to
pre-exist is false for that variant. -/
theorem dataTask_requires_existing_install_dir :
    runDataTask envC8 =
      [Effect.checkPath installDir,
       Effect.setResultFailed (DCError.missingPath installDir)] ∧
    Effect.mkdirP installDir ∉ runDataTask envC8 ∧
    Effect.downloadExtract "https://example.org/dc.zip" "./" ∉
      runDataTask envC8 := by decide

/-- Witness for the C8 theorem: in the same environment the part_000 run
does create, clean, download and extract despite the missing install
directory. -/
theorem runPart000_installs_at_sentinel_witness :
    ∃ rest errOpt,
      runBodyPart000 envC8 =
        (dirSetupEffects envC8 ++
          ([Effect.mkdirP installDir,
            Effect.cleanDir installDir cleanPatterns,
            Effect.downloadExtract "https://example.org/dc.zip" "./"] ++ rest),
         errOpt) :=
  runPart000_installs_at_sentinel envC8 "https://example.org/dc.zip" "dc.zip"
    rfl rfl (by decide) (by decide) rfl (by decide)

/-- Claim C9: with the platform script present, the update step first runs
the script with the version argument under default exec options and fails
the whole step exactly when that invocation exits non-zero; it then runs the
script once more with argument string exactly the update-only flag (plus the
log flag and log path when verbose), under options that ignore the return
code and do not fail on standard error - so the second invocation never
rejects and its exit code is only captured and logged. -/
theorem updateDependencyCheckData_two_invocations (dir : String)
    (hasLocal : Bool) (o : DependencyCheckOptions) (w : Bool)
    (existing : List String) (ex : Nat → Int × Bool)
    (hscript : existing.contains
      (pathJoin (pathJoin dir "bin") (dependencyCheckScriptName w)) = true) :
    ((smokeTestSpec (pathJoin (pathJoin dir "bin")
        (dependencyCheckScriptName w))).args = "--version")
    ∧ ((ex 0).1 ≠ 0 →
        updateDependencyCheckData dir hasLocal o w existing ex =
          ([Effect.checkPath (pathJoin (pathJoin dir "bin")
              (dependencyCheckScriptName w)),
            Effect.setJavaOpts "-Xss8192k",
            Effect.execTool (smokeTestSpec (pathJoin (pathJoin dir "bin")
              (dependencyCheckScriptName w)))],
           some (DCError.execFailed (ex 0).1)))
    ∧ ((ex 0).1 = 0 →
        updateDependencyCheckData dir hasLocal o w existing ex =
          ([Effect.checkPath (pathJoin (pathJoin dir "bin")
              (dependencyCheckScriptName w)),
            Effect.setJavaOpts "-Xss8192k",
            Effect.execTool (smokeTestSpec (pathJoin (pathJoin dir "bin")
              (dependencyCheckScriptName w)))] ++
            (if hasLocal then [] else [Effect.removeLocks dir]) ++
            [Effect.execTool (updateRunSpec (pathJoin (pathJoin dir "bin")
                (dependencyCheckScriptName w)) o),
             Effect.logExitCode (ex 1).1], none))
    ∧ ((updateRunSpec (pathJoin (pathJoin dir "bin")
          (dependencyCheckScriptName w)) o).args =
        if o.isVerboseEnabled then "--updateonly --log " ++ o.logFilePath
        else "--updateonly")
    ∧ (∀ outcome : Int × Bool,
        execThrows (updateRunSpec (pathJoin (pathJoin dir "bin")
          (dependencyCheckScriptName w)) o) outcome = false) := by
  refine ⟨rfl, ?_, ?_, ?_, ?_⟩
  · intro h
    simp [updateDependencyCheckData, hscript, execThrows, smokeTestSpec, h]
    simpa using hscript
  · intro h
    simp [updateDependencyCheckData, hscript, execThrows, smokeTestSpec, h]
    simpa using hscript
  · by_cases hv : o.isVerboseEnabled
    · simp only [updateRunSpec, DependencyCheckOptions.getExecutableArguments,
        hv, if_true]
      rfl
    · simp [updateRunSpec, DependencyCheckOptions.getExecutableArguments, hv]
  · intro outcome
    simp [execThrows, updateRunSpec]

/-- Witness for the C9 theorem: a zero-exit smoke test followed by the
update invocation, whose standard-error output (outcome flag true) does not
fail the step and whose exit code is logged. -/
theorem updateDependencyCheckData_two_invocations_witness :
    updateDependencyCheckData "dc" false oC9 false
        ["dc/bin/dependency-check.sh"] (fun _ => (0, true)) =
      ([Effect.checkPath "dc/bin/dependency-check.sh",
        Effect.setJavaOpts "-Xss8192k",
        Effect.execTool (smokeTestSpec "dc/bin/dependency-check.sh")] ++
        [Effect.removeLocks "dc"] ++
        [Effect.execTool (updateRunSpec "dc/bin/dependency-check.sh" oC9),
         Effect.logExitCode 0], none) :=
  (updateDependencyCheckData_two_invocations "dc" false oC9 false
    ["dc/bin/dependency-check.sh"] (fun _ => (0, true)) (by decide)).2.2.1 rfl

/-- Claim C10: a supplied non-empty custom source URL is used verbatim as
the archive download URL, with no release-metadata resolution, whatever the
requested version: the chosen install URL is the custom URL itself (with no
hypothesis on the version input), and both run variants are entirely
independent of the release-metadata oracle. -/
theorem customRepoUrl_used_verbatim (env : Env) (u : String)
    (h2 : env.customRepoUrl = some u) (h3 : u ≠ "") :
    (chooseInstallZipUrl env = Except.ok u)
    ∧ (∀ f g : String → ReleaseInfo,
        runPart000 { env with fetch := f } =
          runPart000 { env with fetch := g }
        ∧ runDataTask { env with fetch := f } =
            runDataTask { env with fetch := g }) := by
  have hch : ∀ f : String → ReleaseInfo,
      chooseInstallZipUrl { env with fetch := f } = Except.ok u := by
    intro f
    simp [chooseInstallZipUrl, isTruthy, h2, h3]
  constructor
  · simp [chooseInstallZipUrl, isTruthy, h2, h3]
  · intro f g
    have hb1 : runBodyPart000 { env with fetch := f } =
        runBodyPart000 { env with fetch := g } := by
      simp only [runBodyPart000, installBranchPart000, hch, dirSetupEffects,
        dirSetupPaths, logDirOf, expDirOf, runOptions]
    have hb2 : runBodyDataTask { env with fetch := f } =
        runBodyDataTask { env with fetch := g } := by
      simp only [runBodyDataTask, hch]
    exact ⟨by simp only [runPart000, hb1], by simp only [runDataTask, hb2]⟩

/-- Witness for the C10 theorem: the custom URL of the sample environment is
returned verbatim as the chosen archive URL. -/
theorem customRepoUrl_used_verbatim_witness :
    chooseInstallZipUrl envC8 = Except.ok "https://example.org/dc.zip" :=
  (customRepoUrl_used_verbatim envC8 "https://example.org/dc.zip" rfl
    (by decide)).1
